import Mathlib

/-!
Verification development for the nova-oar-mcp server (`nova_oar_mcp.py`).

The Python source is shallowly embedded: each tool function becomes a pure
Lean function parametrised by a `World` (the remote side of the ssh
transport, mapping the executed argument vector and the timeout to a
process outcome).  Every operation returns the value the Python function
would produce together with the list of remote commands it issued, in
order.  A result of `Except.error` models a Python exception propagating
out of the operation; `Except.ok` models a normal return.

Machine integers do not occur (Python integers are unbounded), so `Int`
is used directly.  Strings are modelled as `String` with list-of-char
helpers written out explicitly so that every definition reduces in the
kernel.
-/

namespace NovaOar

/-- Joins a list of strings with a separator.  Models Python's
`sep.join(parts)`. -/
def joinSep (sep : String) : List String → String
  | [] => ""
  | [x] => x
  | x :: y :: xs => x ++ sep ++ joinSep sep (y :: xs)

/-- Character membership in a char list, as a boolean.  Models Python's
`c in s` for a one-character needle. -/
def hasChar (c : Char) : List Char → Bool
  | [] => false
  | x :: xs => x == c || hasChar c xs

/-- String membership in a string list, as a boolean.  Models Python's
`s in list_of_strings`. -/
def hasStr (s : String) : List String → Bool
  | [] => false
  | x :: xs => x == s || hasStr s xs

/-- Whitespace characters removed by Python's `str.strip()` (the ASCII
ones; the inputs considered here contain no exotic Unicode spaces). -/
def isPyWs (c : Char) : Bool :=
  c == ' ' || c == '\t' || c == '\n' || c == '\r' || c == '\x0b' || c == '\x0c'

/-- Strips leading and trailing whitespace from a char list. -/
def pyStripL (cs : List Char) : List Char :=
  ((cs.dropWhile isPyWs).reverse.dropWhile isPyWs).reverse

/-- Models Python's `str.strip()`. -/
def pyStrip (s : String) : String := String.mk (pyStripL s.toList)

/-- Splits a char list on newline characters.  Models Python's
`str.split('\n')` (which yields `[""]` on the empty string and keeps
empty fields). -/
def splitOnNl : List Char → List (List Char)
  | [] => [[]]
  | c :: rest =>
    if c = '\n' then [] :: splitOnNl rest
    else
      match splitOnNl rest with
      | [] => [[c]]
      | l :: ls => (c :: l) :: ls

/-- Strict lexicographic order on char lists by code point, as a boolean.
This is the ordering Python's `<` and `sorted` use on `str`. -/
def charListLt : List Char → List Char → Bool
  | _, [] => false
  | [], _ :: _ => true
  | a :: as, b :: bs =>
    if a < b then true
    else if b < a then false
    else charListLt as bs

/-- Strict lexicographic order on strings by code point, as a boolean. -/
def strLt (s t : String) : Bool := charListLt s.toList t.toList

/-- Inserts a string into a strictly ascending list, keeping it strictly
ascending (duplicates are dropped). -/
def insertSorted (s : String) : List String → List String
  | [] => [s]
  | t :: ts =>
    if s = t then t :: ts
    else if strLt s t then s :: t :: ts
    else t :: insertSorted s ts

/-- Produces the strictly ascending list of the distinct elements of the
input.  This models Python's `sorted(list(set(xs)))`: a `set` holds each
element once and `sorted` lists the distinct elements in ascending
order, which is exactly the strictly ascending enumeration, independent
of the set's iteration order. -/
def sortedDedup (l : List String) : List String := l.foldr insertSorted []

/-- Decimal digit character for a value below ten. -/
def digitChar (d : Nat) : Char := Char.ofNat (48 + d)

/-- Decimal digits of a natural number, most significant first; the
first argument is structural fuel (any fuel above the digit count gives
the same result). -/
def natDigitsAux : Nat → Nat → List Char
  | 0, _ => []
  | fuel + 1, n =>
    if n < 10 then [digitChar n]
    else natDigitsAux fuel (n / 10) ++ [digitChar (n % 10)]

/-- Models Python's `str(i)` for an unbounded integer: decimal digits,
with a leading minus sign for negative values. -/
def pyIntRepr : Int → String
  | Int.ofNat m => String.mk (natDigitsAux (m + 1) m)
  | Int.negSucc m => "-" ++ String.mk (natDigitsAux (m + 2) (m + 1))

/-- Models Python's `f"{xs}"` for a list of strings: `repr` of the list,
single-quoting each element.  (Faithful for names without quote or
backslash characters, which is the only kind occurring here.) -/
def pyListRepr (l : List String) : String :=
  "[" ++ joinSep ", " (l.map (fun s => "'" ++ s ++ "'")) ++ "]"

/-- Boolean list-prefix test (first argument is the candidate pattern). -/
def startsWithL : List Char → List Char → Bool
  | [], _ => true
  | _ :: _, [] => false
  | p :: ps, c :: cs => p == c && startsWithL ps cs

/-- Scans a char list for the first occurrence of `OAR_JOB_ID=` followed
by at least one decimal digit and returns the maximal digit run after
it.  Models `re.search(r'OAR_JOB_ID=(\d+)', output)` (source line 211). -/
def findJobId : List Char → Option (List Char)
  | [] => none
  | c :: rest =>
    if startsWithL "OAR_JOB_ID=".toList (c :: rest) then
      let ds := ((c :: rest).drop 11).takeWhile Char.isDigit
      if ds.isEmpty then findJobId rest else some ds
    else findJobId rest

/-- Full match of a char list against the duration grammar
`\d{1,2}:\d{2}:\d{2}` (digits modelled as ASCII digits). -/
def durChars (cs : List Char) : Bool :=
  match cs with
  | [a, b, c, d, e, f, g] =>
    a.isDigit && b == ':' && c.isDigit && d.isDigit && e == ':' && f.isDigit && g.isDigit
  | [a, b, c, d, e, f, g, h] =>
    a.isDigit && b.isDigit && c == ':' && d.isDigit && e.isDigit && f == ':' &&
      g.isDigit && h.isDigit
  | _ => false

/-- Spec-side rendering, for comparison: a duration string matches the
grammar `\d{1,2}:\d{2}:\d{2}` exactly when the whole string is one or
two digits, a colon, two digits, a colon, and two digits. -/
def specDurationGrammar (s : String) : Bool := durChars s.toList

/-- Models the source's validity check
`re.match(r'^\d{1,2}:\d{2}:\d{2}$', s)` (source lines 110 and 160).
Python's `$` matches at the end of the string or just before a single
newline at the end of the string, so a grammar match followed by one
trailing `'\n'` is also accepted. -/
def walltimeValid (s : String) : Bool :=
  durChars s.toList ||
    (match s.toList.reverse with
     | '\n' :: rest => durChars rest.reverse
     | _ => false)

/-- Spec-side rendering, for comparison: the disjunction
`cluster='a' OR cluster='b' OR ...` over the given names, in the given
order, written as a direct recursion following the spec's words. -/
def specOrChain : List String → String
  | [] => ""
  | [c] => "cluster='" ++ c ++ "'"
  | c :: d :: cs => "cluster='" ++ c ++ "' OR " ++ specOrChain (d :: cs)

/-- Outcome of one remote process invocation, as observed through
`subprocess.run(..., capture_output=True, check=True, timeout=30)`. -/
inductive ProcResult where
  | completed (exitCode : Int) (stdout stderr : String)
  | timedOut

/-- The external world behind the transport: maps the executed argument
vector and the timeout passed to `subprocess.run` to the outcome. -/
def World : Type := List String → Nat → ProcResult

/-- Models `run_ssh_command` (source lines 37-52): runs
`["ssh", host, command]` with a fixed timeout of 30, returns stripped
stdout on exit status 0, raises `ValueError` with the stripped stderr on
a non-zero exit status, and raises `ValueError` on timeout.  An
`Except.error` models the raised `ValueError`. -/
def run_ssh_command (w : World) (host command : String) : Except String String :=
  match w ["ssh", host, command] 30 with
  | ProcResult.completed code out err =>
    if code = 0 then Except.ok (pyStrip out)
    else Except.error ("Command failed: " ++ pyStrip err)
  | ProcResult.timedOut => Except.error "Command timed out"

/-- Result of one operation: the Python return value (or the propagated
exception as `Except.error`) paired with the remote commands issued, in
order. -/
def OpResult (α : Type) : Type := Except String α × List String

/-- Hostname lines extracted from the inventory output: split on
newlines, strip each line, keep the non-empty ones (source line 59). -/
def machinesOfOutput (out : String) : List String :=
  (((splitOnNl out.toList).map pyStripL).map String.mk).filter (fun s => s != "")

/-- Models `list_machines` (source lines 55-60).  There is no exception
handler: a transport failure propagates out of the operation. -/
def list_machines (w : World) (host : String) : OpResult (List String) :=
  match run_ssh_command w host "oarnodes -l" with
  | Except.ok out => (Except.ok (machinesOfOutput out), ["oarnodes -l"])
  | Except.error e => (Except.error e, ["oarnodes -l"])

/-- Value stored in one of the literal Python dicts the operations
build. -/
inductive PyVal where
  | str (s : String)
  | emptyDict
deriving DecidableEq

/-- Return value of the JSON-returning operations: either the structure
produced by the JSON parser, or one of the literal dicts built in the
source. -/
inductive PyDict (J : Type) where
  | json (v : J)
  | fields (l : List (String × PyVal))

/-- Models `list_machines_detailed` (source lines 63-70).  The remote
call is outside the `try`, so a transport failure propagates; only a
JSON parse failure is converted into the degraded dict. -/
def list_machines_detailed {J : Type} (jp : String → Except String J)
    (w : World) (host : String) : OpResult (PyDict J) :=
  match run_ssh_command w host "oarnodes -J" with
  | Except.error e => (Except.error e, ["oarnodes -J"])
  | Except.ok out =>
    match jp out with
    | Except.ok v => (Except.ok (PyDict.json v), ["oarnodes -J"])
    | Except.error e =>
      (Except.ok (PyDict.fields
        [("error", PyVal.str ("Failed to parse JSON output: " ++ e)),
         ("raw_output", PyVal.str out)]), ["oarnodes -J"])

/-- Cluster names derived from a machine list (source lines 77-85): for
each hostname containing `'-'`, the part before the first `'-'`,
collected into a set and returned sorted. -/
def clustersOf (machines : List String) : List String :=
  sortedDedup (machines.filterMap (fun m =>
    if hasChar '-' m.toList then some (String.mk (m.toList.takeWhile (fun c => c ≠ '-')))
    else none))

/-- Models `list_clusters` (source lines 73-85).  No exception handler:
a transport failure inside `list_machines` propagates. -/
def list_clusters (w : World) (host : String) : OpResult (List String) :=
  match list_machines w host with
  | (Except.ok ms, calls) => (Except.ok (clustersOf ms), calls)
  | (Except.error e, calls) => (Except.error e, calls)

/-- Models `delete_job` (source lines 88-95): any `ValueError` from the
transport is caught and rendered as a failure message. -/
def delete_job (w : World) (host : String) (job_id : Int) : OpResult String :=
  match run_ssh_command w host ("oardel " ++ pyIntRepr job_id) with
  | Except.ok out =>
    (Except.ok ("Job " ++ pyIntRepr job_id ++ " deletion requested: " ++ out),
      ["oardel " ++ pyIntRepr job_id])
  | Except.error e =>
    (Except.ok ("Failed to delete job " ++ pyIntRepr job_id ++ ": " ++ e),
      ["oardel " ++ pyIntRepr job_id])

/-- Models `extend_walltime` (source lines 98-120): rejects an invalid
duration before any remote call, otherwise issues the increment command
(with `--force` appended when requested) and catches transport
failures. -/
def extend_walltime (w : World) (host : String) (job_id : Int)
    (additional_time : String) (force : Bool) : OpResult String :=
  if walltimeValid additional_time = false then
    (Except.ok "Invalid time format. Use hh:mm:ss (e.g., '1:30:00')", [])
  else
    let command := "oarwalltime " ++ pyIntRepr job_id ++ " +" ++ additional_time ++
      (if force then " --force" else "")
    match run_ssh_command w host command with
    | Except.ok out =>
      (Except.ok ("Extended walltime for job " ++ pyIntRepr job_id ++ ": " ++ out), [command])
    | Except.error e =>
      (Except.ok ("Failed to extend walltime for job " ++ pyIntRepr job_id ++ ": " ++ e),
        [command])

/-- Models `get_walltime_status` (source lines 123-135). -/
def get_walltime_status (w : World) (host : String) (job_id : Int) : OpResult String :=
  match run_ssh_command w host ("oarwalltime " ++ pyIntRepr job_id) with
  | Except.ok out =>
    (Except.ok ("Walltime status for job " ++ pyIntRepr job_id ++ ": " ++ out),
      ["oarwalltime " ++ pyIntRepr job_id])
  | Except.error e =>
    (Except.ok ("Failed to get walltime status for job " ++ pyIntRepr job_id ++ ": " ++ e),
      ["oarwalltime " ++ pyIntRepr job_id])

/-- Arguments contributed by the optional job name (source lines
184-185): Python's `if name:` treats both `None` and the empty string
as absent. -/
def nameArgs : Option String → List String
  | none => []
  | some nm => if nm = "" then [] else ["-n", nm]

/-- Arguments contributed by the best-effort flag (source lines
188-189). -/
def beArgs (b : Bool) : List String := if b then ["-t", "besteffort"] else []

/-- Disjunction of cluster equality predicates joined by `" OR "`
(source line 173). -/
def clusterPredicate (clusters : List String) : String :=
  joinSep " OR " (clusters.map (fun c => "cluster='" ++ c ++ "'"))

/-- Resource selection string (source lines 164-178): with no cluster
constraint, `nodes=<n>,walltime=<w>`; with a single cluster,
`{cluster='<c>'}/nodes=<n>,walltime=<w>`; with several,
`{(<predicate>)}/nodes=<n>,walltime=<w>`. -/
def resource_string (clusters : List String) (nodes : Int) (walltime : String) : String :=
  match clusters with
  | [] => "nodes=" ++ pyIntRepr nodes ++ ",walltime=" ++ walltime
  | [c] =>
    "\x7bcluster='" ++ c ++ "'\x7d/nodes=" ++ pyIntRepr nodes ++ ",walltime=" ++ walltime
  | cs =>
    "\x7b(" ++ clusterPredicate cs ++ ")\x7d/nodes=" ++ pyIntRepr nodes ++
      ",walltime=" ++ walltime

/-- Single-quotes an argument exactly when it contains a space (source
line 206). -/
def quoteIfSpace (a : String) : String :=
  if hasChar ' ' a.toList then "'" ++ a ++ "'" else a

/-- Tokens of the composed remote submission command (source lines
180-206).  With a cluster constraint the resource string is
double-quoted and the command single-quoted unconditionally; without
one, every argument of the plain `oarsub` argument list is
single-quoted exactly when it contains a space. -/
def oarsubTokens (clusters : List String) (nodes : Int) (walltime command : String)
    (name : Option String) (best_effort : Bool) : List String :=
  match clusters with
  | [] =>
    (["oarsub", "-l", resource_string [] nodes walltime] ++ nameArgs name ++
      beArgs best_effort ++ [command]).map quoteIfSpace
  | _ :: _ =>
    ["oarsub", "-l", "\"" ++ resource_string clusters nodes walltime ++ "\""] ++
      nameArgs name ++ beArgs best_effort ++ ["'" ++ command ++ "'"]

/-- The composed remote submission command line (source lines 204 and
206): the tokens joined by single spaces. -/
def full_command_of (clusters : List String) (nodes : Int) (walltime command : String)
    (name : Option String) (best_effort : Bool) : String :=
  joinSep " " (oarsubTokens clusters nodes walltime command name best_effort)

/-- Submission tail of `create_job` (source lines 208-219): runs the
composed command, scans the output for `OAR_JOB_ID=<digits>`, and
renders the success or failure message; `prior` is the list of remote
commands already issued. -/
def submitAndReport (w : World) (host fc : String) (prior : List String) : OpResult String :=
  match run_ssh_command w host fc with
  | Except.error e => (Except.ok ("Failed to create job: " ++ e), prior ++ [fc])
  | Except.ok out =>
    match findJobId out.toList with
    | some ds =>
      (Except.ok ("Job created successfully with ID: " ++ String.mk ds ++
        "\nOutput: " ++ out), prior ++ [fc])
    | none => (Except.ok ("Job submission completed: " ++ out), prior ++ [fc])

/-- Models `create_job` (source lines 138-219): validates the walltime,
then (when clusters are requested) fetches the inventory, rejects
unknown clusters, and finally composes and executes the submission
command line.  Python's `if clusters:` treats `None` and the empty
list alike. -/
def create_job (w : World) (host : String) (clusters : Option (List String))
    (nodes : Int) (walltime command : String) (name : Option String)
    (best_effort : Bool) : OpResult String :=
  if walltimeValid walltime = false then
    (Except.ok "Invalid walltime format. Use hh:mm:ss (e.g., '1:00:00')", [])
  else
    match clusters.getD [] with
    | [] => submitAndReport w host (full_command_of [] nodes walltime command name best_effort) []
    | c :: cs =>
      match list_clusters w host with
      | (Except.error e, calls) => (Except.ok ("Failed to create job: " ++ e), calls)
      | (Except.ok available, calls) =>
        match (c :: cs).filter (fun x => !(hasStr x available)) with
        | [] =>
          submitAndReport w host
            (full_command_of (c :: cs) nodes walltime command name best_effort) calls
        | i :: is =>
          (Except.ok ("Invalid clusters: " ++ pyListRepr (i :: is) ++
            ". Available: " ++ pyListRepr available), calls)

/-- Models `get_job_status` (source lines 222-231). -/
def get_job_status {J : Type} (jp : String → Except String J) (w : World)
    (host : String) (job_id : Int) : OpResult (PyDict J) :=
  match run_ssh_command w host ("oarstat -j " ++ pyIntRepr job_id ++ " -J") with
  | Except.error e =>
    (Except.ok (PyDict.fields
      [("error", PyVal.str ("Failed to get job status for " ++ pyIntRepr job_id ++ ": " ++ e))]),
      ["oarstat -j " ++ pyIntRepr job_id ++ " -J"])
  | Except.ok out =>
    match jp out with
    | Except.ok v => (Except.ok (PyDict.json v), ["oarstat -j " ++ pyIntRepr job_id ++ " -J"])
    | Except.error e =>
      (Except.ok (PyDict.fields
        [("error", PyVal.str ("Failed to parse JSON output: " ++ e)),
         ("raw_output", PyVal.str out)]),
        ["oarstat -j " ++ pyIntRepr job_id ++ " -J"])

/-- Models `list_all_jobs` (source lines 234-243). -/
def list_all_jobs {J : Type} (jp : String → Except String J) (w : World)
    (host : String) : OpResult (PyDict J) :=
  match run_ssh_command w host "oarstat -J" with
  | Except.error e =>
    (Except.ok (PyDict.fields [("error", PyVal.str ("Failed to list jobs: " ++ e))]),
      ["oarstat -J"])
  | Except.ok out =>
    match jp out with
    | Except.ok v => (Except.ok (PyDict.json v), ["oarstat -J"])
    | Except.error e =>
      (Except.ok (PyDict.fields
        [("error", PyVal.str ("Failed to parse JSON output: " ++ e)),
         ("raw_output", PyVal.str out)]), ["oarstat -J"])

/-- Models `list_my_jobs` (source lines 246-266): probes with the plain
listing, short-circuits on an empty probe, otherwise fetches the
structured listing; on a JSON parse failure it refetches the plain
listing and returns it with an explanatory message, surfacing the raw
unparsed text only when that refetch itself fails. -/
def list_my_jobs {J : Type} (jp : String → Except String J) (w : World)
    (host : String) : OpResult (PyDict J) :=
  match run_ssh_command w host "oarstat -u" with
  | Except.error e =>
    (Except.ok (PyDict.fields
      [("error", PyVal.str ("Failed to list jobs for current user: " ++ e))]), ["oarstat -u"])
  | Except.ok reg =>
    if pyStrip reg = "" then
      (Except.ok (PyDict.fields
        [("message", PyVal.str "No jobs found for current user"), ("jobs", PyVal.emptyDict)]),
        ["oarstat -u"])
    else
      match run_ssh_command w host "oarstat -u -J" with
      | Except.error e =>
        (Except.ok (PyDict.fields
          [("error", PyVal.str ("Failed to list jobs for current user: " ++ e))]),
          ["oarstat -u", "oarstat -u -J"])
      | Except.ok out =>
        match jp out with
        | Except.ok v => (Except.ok (PyDict.json v), ["oarstat -u", "oarstat -u -J"])
        | Except.error e =>
          match run_ssh_command w host "oarstat -u" with
          | Except.ok reg2 =>
            (Except.ok (PyDict.fields
              [("message",
                PyVal.str "Jobs for current user (text format due to JSON parsing error)"),
               ("output", PyVal.str reg2)]),
              ["oarstat -u", "oarstat -u -J", "oarstat -u"])
          | Except.error _ =>
            (Except.ok (PyDict.fields
              [("error", PyVal.str ("Failed to parse JSON output and fallback failed: " ++ e)),
               ("raw_output", PyVal.str out)]),
              ["oarstat -u", "oarstat -u -J", "oarstat -u"])

/-- World that answers every invocation with the same outcome. -/
def constWorld (r : ProcResult) : World := fun _ _ => r

theorem toList_append (a b : String) : (a ++ b).toList = a.toList ++ b.toList := by
  cases a; cases b; rfl

theorem toList_mk (l : List Char) : (String.mk l).toList = l := rfl

theorem hasChar_iff_mem (c : Char) : ∀ l : List Char, hasChar c l = true ↔ c ∈ l := by
  intro l
  induction l with
  | nil => simp [hasChar]
  | cons x xs ih =>
    simp only [hasChar, Bool.or_eq_true, beq_iff_eq, List.mem_cons, ih]
    constructor
    · rintro (h | h)
      · exact Or.inl h.symm
      · exact Or.inr h
    · rintro (h | h)
      · exact Or.inl h.symm
      · exact Or.inr h

theorem hasChar_append (c : Char) (a b : List Char) :
    hasChar c (a ++ b) = (hasChar c a || hasChar c b) := by
  induction a with
  | nil => simp [hasChar]
  | cons x xs ih => simp [hasChar, ih, Bool.or_assoc]

theorem hasStr_iff_mem (s : String) : ∀ l : List String, hasStr s l = true ↔ s ∈ l := by
  intro l
  induction l with
  | nil => simp [hasStr]
  | cons x xs ih =>
    simp only [hasStr, Bool.or_eq_true, beq_iff_eq, List.mem_cons, ih]
    constructor
    · rintro (h | h)
      · exact Or.inl h.symm
      · exact Or.inr h
    · rintro (h | h)
      · exact Or.inl h.symm
      · exact Or.inr h

theorem clusterPredicate_eq_specOrChain : ∀ l, clusterPredicate l = specOrChain l := by
  intro l
  induction l with
  | nil => rfl
  | cons c cs ih =>
    cases cs with
    | nil => rfl
    | cons d ds =>
      show "cluster='" ++ c ++ "'" ++ " OR " ++ clusterPredicate (d :: ds) = _
      rw [ih]
      rw [← String.toList_inj]
      simp [toList_append, specOrChain]

/-- C1: for every node count and walltime, the compiled resource-selection
string is `nodes=n,walltime=w` with no cluster constraint,
`{cluster='c'}/nodes=n,walltime=w` for a single cluster `c`, and
`{(cluster='c1' OR cluster='c2' OR ...)}/nodes=n,walltime=w` for two or
more clusters, with the disjunction preserving input order, without
de-duplication or sorting (the spec-side chain `specOrChain` repeats
duplicate names verbatim). -/
theorem C1_resource_selection (n : Int) (t : String) :
    resource_string [] n t = "nodes=" ++ pyIntRepr n ++ ",walltime=" ++ t ∧
    (∀ c, resource_string [c] n t =
      "\x7bcluster='" ++ c ++ "'\x7d/nodes=" ++ pyIntRepr n ++ ",walltime=" ++ t) ∧
    (∀ c d cs, resource_string (c :: d :: cs) n t =
      "\x7b(" ++ specOrChain (c :: d :: cs) ++ ")\x7d/nodes=" ++ pyIntRepr n ++
        ",walltime=" ++ t) := by
  refine ⟨rfl, fun c => rfl, fun c d cs => ?_⟩
  show "\x7b(" ++ clusterPredicate (c :: d :: cs) ++ ")\x7d/nodes=" ++ pyIntRepr n ++
      ",walltime=" ++ t = _
  rw [clusterPredicate_eq_specOrChain]

theorem durChars_mem (cs : List Char) (h : durChars cs = true) :
    ∀ x ∈ cs, x.isDigit = true ∨ x = ':' := by
  intro x hx
  rcases cs with _ | ⟨a, _ | ⟨b, _ | ⟨c, _ | ⟨d, _ | ⟨e, _ | ⟨f, _ | ⟨g, _ | ⟨h8, rest⟩⟩⟩⟩⟩⟩⟩⟩
  · simp [durChars] at h
  · simp [durChars] at h
  · simp [durChars] at h
  · simp [durChars] at h
  · simp [durChars] at h
  · simp [durChars] at h
  · simp [durChars] at h
  · simp only [durChars, Bool.and_eq_true, beq_iff_eq] at h
    obtain ⟨⟨⟨⟨⟨⟨h1, h2⟩, h3⟩, h4⟩, h5⟩, h6⟩, h7⟩ := h
    rcases hx with _ | ⟨_, _ | ⟨_, _ | ⟨_, _ | ⟨_, _ | ⟨_, _ | ⟨_, _ | ⟨_, hx⟩⟩⟩⟩⟩⟩⟩
    · exact Or.inl h1
    · exact Or.inr h2
    · exact Or.inl h3
    · exact Or.inl h4
    · exact Or.inr h5
    · exact Or.inl h6
    · exact Or.inl h7
    · cases hx
  · rcases rest with _ | ⟨i, rest⟩
    · simp only [durChars, Bool.and_eq_true, beq_iff_eq] at h
      obtain ⟨⟨⟨⟨⟨⟨⟨h1, h2⟩, h3⟩, h4⟩, h5⟩, h6⟩, h7⟩, h9⟩ := h
      rcases hx with _ | ⟨_, _ | ⟨_, _ | ⟨_, _ | ⟨_, _ | ⟨_, _ | ⟨_, _ | ⟨_, _ | ⟨_, hx⟩⟩⟩⟩⟩⟩⟩⟩
      · exact Or.inl h1
      · exact Or.inl h2
      · exact Or.inr h3
      · exact Or.inl h4
      · exact Or.inl h5
      · exact Or.inr h6
      · exact Or.inl h7
      · exact Or.inl h9
      · cases hx
    · simp [durChars] at h

theorem walltimeValid_chars (s : String) (h : walltimeValid s = true) :
    ∀ x ∈ s.toList, x.isDigit = true ∨ x = ':' ∨ x = '\n' := by
  intro x hx
  unfold walltimeValid at h
  rw [Bool.or_eq_true] at h
  rcases h with h | h
  · rcases durChars_mem _ h x hx with h' | h'
    · exact Or.inl h'
    · exact Or.inr (Or.inl h')
  · split at h
    · rename_i rest heq
      have hs : s.toList = rest.reverse ++ ['\n'] := by
        have := congrArg List.reverse heq
        simpa using this
      rw [hs] at hx
      rcases List.mem_append.1 hx with h' | h'
      · rcases durChars_mem _ h x h' with h'' | h''
        · exact Or.inl h''
        · exact Or.inr (Or.inl h'')
      · simp only [List.mem_singleton] at h'
        exact Or.inr (Or.inr h')
    · cases h

theorem walltimeValid_no_space (s : String) (h : walltimeValid s = true) :
    hasChar ' ' s.toList = false := by
  by_contra hc
  rw [Bool.not_eq_false, hasChar_iff_mem] at hc
  rcases walltimeValid_chars s h ' ' hc with h' | h' | h' <;> simp_all

theorem natDigitsAux_no_space : ∀ fuel n, hasChar ' ' (natDigitsAux fuel n) = false := by
  intro fuel
  induction fuel with
  | zero => intro n; rfl
  | succ fuel ih =>
    intro n
    unfold natDigitsAux
    have hd : ∀ d, d < 10 → (decide (digitChar d = ' ') || false) = false := by decide
    split
    · rename_i hlt
      simpa [hasChar] using hd n hlt
    · rw [hasChar_append, ih]
      simpa [hasChar] using hd (n % 10) (Nat.mod_lt _ (by norm_num))

theorem pyIntRepr_no_space (n : Int) : hasChar ' ' (pyIntRepr n).toList = false := by
  cases n with
  | ofNat m =>
    show hasChar ' ' (natDigitsAux (m + 1) m) = false
    exact natDigitsAux_no_space _ _
  | negSucc m =>
    show hasChar ' ' (("-" ++ String.mk (natDigitsAux (m + 2) (m + 1))).toList) = false
    have h2 : hasChar ' ' (String.mk (natDigitsAux (m + 2) (m + 1))).toList = false :=
      natDigitsAux_no_space (m + 2) (m + 1)
    rw [toList_append, hasChar_append, h2]
    rfl

theorem quoteIfSpace_eq_self {a : String} (h : hasChar ' ' a.toList = false) :
    quoteIfSpace a = a := by
  unfold quoteIfSpace
  rw [h]
  rfl

theorem rs_empty_no_space (n : Int) (w : String) (h : walltimeValid w = true) :
    hasChar ' ' (resource_string [] n w).toList = false := by
  show hasChar ' ' (("nodes=" ++ pyIntRepr n ++ ",walltime=" ++ w).toList) = false
  rw [toList_append, toList_append, toList_append, hasChar_append, hasChar_append,
    hasChar_append, pyIntRepr_no_space, walltimeValid_no_space w h]
  rfl

/-- C2 (amended): when clusters are constrained the composed command
line double-quotes the resource string and single-quotes the command
unconditionally, emitting the name and class flags unquoted; when no
cluster is constrained, every argument of the plain submission argument
list — the resource string and the command included — is single-quoted
exactly when it contains a space, so the space-free resource string is
emitted unquoted there. -/
theorem C2_quoting_amended (cl : List String) (n : Int) (w cmd : String)
    (nm : Option String) (be : Bool) (hval : walltimeValid w = true) :
    (∀ c cs, cl = c :: cs → oarsubTokens cl n w cmd nm be =
      ["oarsub", "-l", "\"" ++ resource_string cl n w ++ "\""] ++ nameArgs nm ++
        beArgs be ++ ["'" ++ cmd ++ "'"]) ∧
    oarsubTokens [] n w cmd nm be =
      ["oarsub", "-l", resource_string [] n w] ++
        (nameArgs nm ++ beArgs be ++ [cmd]).map quoteIfSpace := by
  constructor
  · intro c cs hcl
    subst hcl
    rfl
  · show (["oarsub", "-l", resource_string [] n w] ++ (nameArgs nm ++ beArgs be ++ [cmd])).map
        quoteIfSpace = _
    rw [List.map_append]
    congr 1
    show [quoteIfSpace "oarsub", quoteIfSpace "-l", quoteIfSpace (resource_string [] n w)] = _
    rw [quoteIfSpace_eq_self (rs_empty_no_space n w hval)]
    rfl

/-- C2 (counterexample): in the unconstrained case the composed tokens
for the default request are exactly
`oarsub -l nodes=1,walltime=1:00:00 'sleep 365d'`; the double-quoted
resource string is not among them, contradicting the claim that the
resource-selection string is double-quoted in the unconstrained case as
well. -/
theorem C2_quoting_counterexample :
    oarsubTokens [] 1 "1:00:00" "sleep 365d" none false =
      ["oarsub", "-l", "nodes=1,walltime=1:00:00", "'sleep 365d'"] ∧
    "\"nodes=1,walltime=1:00:00\"" ∉ oarsubTokens [] 1 "1:00:00" "sleep 365d" none false := by
  refine ⟨by decide, by decide⟩

/-- C2 (witness): concrete token lists for a constrained and an
unconstrained request. -/
theorem C2_quoting_witness :
    oarsubTokens ["alakazam"] 1 "1:00:00" "sleep 365d" none false =
      ["oarsub", "-l", "\"\x7bcluster='alakazam'\x7d/nodes=1,walltime=1:00:00\"",
        "'sleep 365d'"] ∧
    oarsubTokens [] 1 "1:00:00" "sleep 365d" none false =
      ["oarsub", "-l", "nodes=1,walltime=1:00:00", "'sleep 365d'"] := by
  refine ⟨?_, ?_⟩
  · rw [(C2_quoting_amended ["alakazam"] 1 "1:00:00" "sleep 365d" none false
      (by decide)).1 "alakazam" [] rfl]
    rfl
  · rw [(C2_quoting_amended [] 1 "1:00:00" "sleep 365d" none false (by decide)).2]
    rfl

/-- C3 (amended): for every duration string the validator rejects —
every string that neither fully matches `\d{1,2}:\d{2}:\d{2}` nor is
such a match followed by one trailing newline — job creation and
walltime extension return their validation rejection message and issue
no remote call at all. -/
theorem C3_reject_before_remote (w : World) (host : String) (jid : Int) (t : String)
    (force : Bool) (clusters : Option (List String)) (n : Int) (cmd : String)
    (nm : Option String) (be : Bool) (h : walltimeValid t = false) :
    extend_walltime w host jid t force =
      (Except.ok "Invalid time format. Use hh:mm:ss (e.g., '1:30:00')", []) ∧
    create_job w host clusters n t cmd nm be =
      (Except.ok "Invalid walltime format. Use hh:mm:ss (e.g., '1:00:00')", []) := by
  constructor
  · unfold extend_walltime
    rw [h]
    rfl
  · unfold create_job
    rw [h]
    rfl

/-- C3 (witness): the duration `25:00` of end-to-end scenario B is
rejected by both operations with no remote call. -/
theorem C3_reject_witness :
    extend_walltime (constWorld ProcResult.timedOut) "cluster" 7 "25:00" false =
      (Except.ok "Invalid time format. Use hh:mm:ss (e.g., '1:30:00')", []) ∧
    create_job (constWorld ProcResult.timedOut) "cluster" none 1 "25:00" "sleep 365d"
        none false =
      (Except.ok "Invalid walltime format. Use hh:mm:ss (e.g., '1:00:00')", []) :=
  C3_reject_before_remote (constWorld ProcResult.timedOut) "cluster" 7 "25:00" false
    none 1 "sleep 365d" none false (by decide)

/-- C3 (counterexample): the string `1:00:00` followed by a newline does
not match the grammar `\d{1,2}:\d{2}:\d{2}`, yet both operations accept
it (Python's `$` also matches just before a final newline) and issue a
remote call. -/
theorem C3_counterexample :
    specDurationGrammar "1:00:00\n" = false ∧
    (extend_walltime (constWorld ProcResult.timedOut) "h" 1 "1:00:00\n" false).2 =
      ["oarwalltime 1 +1:00:00\n"] ∧
    (create_job (constWorld ProcResult.timedOut) "h" none 1 "1:00:00\n" "sleep 365d"
        none false).2 ≠ [] := by
  refine ⟨by decide, by decide, by decide⟩

/-- Parser stub that fails on every input with a fixed message. -/
def jpFail (msg : String) : String → Except String Unit := fun _ => Except.error msg

theorem list_machines_run (w : World) (host out : String)
    (h : run_ssh_command w host "oarnodes -l" = Except.ok out) :
    list_machines w host = (Except.ok (machinesOfOutput out), ["oarnodes -l"]) := by
  unfold list_machines
  rw [h]

theorem list_clusters_run (w : World) (host out : String)
    (h : run_ssh_command w host "oarnodes -l" = Except.ok out) :
    list_clusters w host =
      (Except.ok (clustersOf (machinesOfOutput out)), ["oarnodes -l"]) := by
  unfold list_clusters
  rw [list_machines_run w host out h]

theorem create_job_valid (w : World) (host : String) (clusters : Option (List String))
    (n : Int) (t cmd : String) (nm : Option String) (be : Bool)
    (hval : walltimeValid t = true) :
    create_job w host clusters n t cmd nm be =
      (match clusters.getD [] with
       | [] => submitAndReport w host (full_command_of [] n t cmd nm be) []
       | c :: cs =>
         match list_clusters w host with
         | (Except.error e, calls) => (Except.ok ("Failed to create job: " ++ e), calls)
         | (Except.ok available, calls) =>
           match (c :: cs).filter (fun x => !(hasStr x available)) with
           | [] => submitAndReport w host (full_command_of (c :: cs) n t cmd nm be) calls
           | i :: is =>
             (Except.ok ("Invalid clusters: " ++ pyListRepr (i :: is) ++ ". Available: " ++
               pyListRepr available), calls)) := by
  unfold create_job
  rw [hval]
  exact if_neg (by decide)

/-- C4: whenever the inventory query answers and at least one requested
cluster is missing from the derived inventory, job creation returns the
validation message listing exactly the offending names and the full
valid set, and the only remote command issued is the inventory listing —
no submission command is sent. -/
theorem C4_unknown_clusters (w : World) (host out c : String) (cs : List String)
    (n : Int) (t cmd : String) (nm : Option String) (be : Bool) (i : String)
    (is : List String) (hval : walltimeValid t = true)
    (hinv : run_ssh_command w host "oarnodes -l" = Except.ok out)
    (hbad : (c :: cs).filter
        (fun x => !(hasStr x (clustersOf (machinesOfOutput out)))) = i :: is) :
    create_job w host (some (c :: cs)) n t cmd nm be =
      (Except.ok ("Invalid clusters: " ++ pyListRepr (i :: is) ++ ". Available: " ++
        pyListRepr (clustersOf (machinesOfOutput out))), ["oarnodes -l"]) := by
  rw [create_job_valid w host (some (c :: cs)) n t cmd nm be hval]
  rw [list_clusters_run w host out hinv]
  show (match (c :: cs).filter
      (fun x => !(hasStr x (clustersOf (machinesOfOutput out)))) with
    | [] =>
      submitAndReport w host (full_command_of (c :: cs) n t cmd nm be) ["oarnodes -l"]
    | i :: is =>
      (Except.ok ("Invalid clusters: " ++ pyListRepr (i :: is) ++ ". Available: " ++
        pyListRepr (clustersOf (machinesOfOutput out))), ["oarnodes -l"])) = _
  rw [hbad]

/-- C4 (witness): end-to-end scenario C — requesting `mewtwo` against an
inventory deriving `alakazam` and `bulbasaur` returns the validation
error listing exactly the offending name and the two valid names, with
only the inventory command issued. -/
theorem C4_unknown_clusters_witness :
    create_job (constWorld (ProcResult.completed 0 "alakazam-01\nbulbasaur-02" "")) "h"
        (some ["mewtwo"]) 2 "2:00:00" "sleep 365d" none false =
      (Except.ok "Invalid clusters: ['mewtwo']. Available: ['alakazam', 'bulbasaur']",
        ["oarnodes -l"]) := by
  rw [C4_unknown_clusters (constWorld (ProcResult.completed 0 "alakazam-01\nbulbasaur-02" ""))
    "h" "alakazam-01\nbulbasaur-02" "mewtwo" [] 2 "2:00:00" "sleep 365d" none false
    "mewtwo" [] (by decide) rfl (by decide)]
  rfl

/-- C6: the executor queries the world with the fixed 30-unit timeout;
on exit status zero it returns the stdout stream with surrounding
whitespace stripped, on a non-zero exit status it fails with an error
carrying the trimmed stderr stream, and on exceeding the bound it fails
with the timeout error. -/
theorem C6_executor (w : World) (host cmd : String) :
    (∀ out err, w ["ssh", host, cmd] 30 = ProcResult.completed 0 out err →
      run_ssh_command w host cmd = Except.ok (pyStrip out)) ∧
    (∀ code out err, w ["ssh", host, cmd] 30 = ProcResult.completed code out err →
      code ≠ 0 →
      run_ssh_command w host cmd = Except.error ("Command failed: " ++ pyStrip err)) ∧
    (w ["ssh", host, cmd] 30 = ProcResult.timedOut →
      run_ssh_command w host cmd = Except.error "Command timed out") := by
  refine ⟨?_, ?_, ?_⟩
  · intro out err h
    unfold run_ssh_command
    rw [h]
    rfl
  · intro code out err h hc
    unfold run_ssh_command
    rw [h]
    show (if code = 0 then Except.ok (pyStrip out)
      else Except.error ("Command failed: " ++ pyStrip err)) = _
    rw [if_neg hc]
  · intro h
    unfold run_ssh_command
    rw [h]

/-- C6 (witness): concrete instances of all three executor outcomes. -/
theorem C6_executor_witness :
    run_ssh_command (constWorld (ProcResult.completed 0 " out " "")) "cluster" "oarstat" =
      Except.ok "out" ∧
    run_ssh_command (constWorld (ProcResult.completed 2 "" " boom ")) "cluster" "oarstat" =
      Except.error "Command failed: boom" ∧
    run_ssh_command (constWorld ProcResult.timedOut) "cluster" "oarstat" =
      Except.error "Command timed out" :=
  ⟨(C6_executor (constWorld (ProcResult.completed 0 " out " "")) "cluster" "oarstat").1
      " out " "" rfl,
    (C6_executor (constWorld (ProcResult.completed 2 "" " boom ")) "cluster" "oarstat").2.1
      2 "" " boom " rfl (by decide),
    (C6_executor (constWorld ProcResult.timedOut) "cluster" "oarstat").2.2 rfl⟩

/-- C7: when the submission command executes successfully, job creation
scans the output for `OAR_JOB_ID=<digits>`; if the token is present it
returns success reporting the parsed identifier together with the raw
output, and if it is absent it returns success carrying the raw output
alone — never an error. -/
theorem C7_jobid_scan (w : World) (host : String) (n : Int) (t cmd : String)
    (nm : Option String) (be : Bool) (out : String)
    (hval : walltimeValid t = true)
    (hrun : run_ssh_command w host (full_command_of [] n t cmd nm be) = Except.ok out) :
    (∀ ds, findJobId out.toList = some ds →
      create_job w host none n t cmd nm be =
        (Except.ok ("Job created successfully with ID: " ++ String.mk ds ++
          "\nOutput: " ++ out), [full_command_of [] n t cmd nm be])) ∧
    (findJobId out.toList = none →
      create_job w host none n t cmd nm be =
        (Except.ok ("Job submission completed: " ++ out),
          [full_command_of [] n t cmd nm be])) := by
  have hcj : create_job w host none n t cmd nm be =
      submitAndReport w host (full_command_of [] n t cmd nm be) [] :=
    create_job_valid w host none n t cmd nm be hval
  constructor
  · intro ds hds
    rw [hcj]
    unfold submitAndReport
    rw [hrun]
    dsimp only
    rw [hds]
    rfl
  · intro hds
    rw [hcj]
    unfold submitAndReport
    rw [hrun]
    dsimp only
    rw [hds]
    rfl

/-- C7 (witness): output containing `OAR_JOB_ID=1234` yields the parsed
identifier 1234 plus the raw output. -/
theorem C7_jobid_scan_witness :
    create_job (constWorld (ProcResult.completed 0 "OAR_JOB_ID=1234" "")) "h" none 1
        "1:00:00" "sleep 365d" none false =
      (Except.ok ("Job created successfully with ID: 1234\nOutput: OAR_JOB_ID=1234"),
        ["oarsub -l nodes=1,walltime=1:00:00 'sleep 365d'"]) := by
  rw [(C7_jobid_scan (constWorld (ProcResult.completed 0 "OAR_JOB_ID=1234" "")) "h" 1
    "1:00:00" "sleep 365d" none false "OAR_JOB_ID=1234" (by decide) rfl).1
    "1234".toList rfl]
  rfl

/-- C10: job creation never validates the node count: for every integer
`n`, zero and negative values included, a request with a valid walltime
and no cluster constraint interpolates `n` verbatim as `nodes=n` into
the resource-selection string and issues the submission command to the
remote side regardless of the world's answer. -/
theorem C10_no_node_validation (w : World) (host : String) (n : Int) (t cmd : String)
    (nm : Option String) (be : Bool) (hval : walltimeValid t = true) :
    resource_string [] n t = "nodes=" ++ pyIntRepr n ++ ",walltime=" ++ t ∧
    (create_job w host none n t cmd nm be).2 =
      [joinSep " " ((["oarsub", "-l", "nodes=" ++ pyIntRepr n ++ ",walltime=" ++ t] ++
        nameArgs nm ++ beArgs be ++ [cmd]).map quoteIfSpace)] := by
  refine ⟨rfl, ?_⟩
  rw [create_job_valid w host none n t cmd nm be hval]
  show (submitAndReport w host (full_command_of [] n t cmd nm be) []).2 = _
  unfold submitAndReport
  cases hr : run_ssh_command w host (full_command_of [] n t cmd nm be) with
  | error e => rfl
  | ok out =>
    dsimp only
    cases findJobId out.toList with
    | none => rfl
    | some ds => rfl

/-- C10 (witness): a negative node count of -3 is interpolated verbatim
and the submission command is issued. -/
theorem C10_no_node_validation_witness :
    (create_job (constWorld ProcResult.timedOut) "h" none (-3) "1:00:00" "sleep 365d"
      none false).2 = ["oarsub -l nodes=-3,walltime=1:00:00 'sleep 365d'"] := by
  rw [(C10_no_node_validation (constWorld ProcResult.timedOut) "h" (-3) "1:00:00"
    "sleep 365d" none false (by decide)).2]
  decide

theorem submitAndReport_ok (w : World) (host fc : String) (prior : List String) :
    ∃ v, (submitAndReport w host fc prior).1 = Except.ok v := by
  unfold submitAndReport
  cases run_ssh_command w host fc with
  | error e => exact ⟨_, rfl⟩
  | ok out =>
    dsimp only
    cases findJobId out.toList with
    | none => exact ⟨_, rfl⟩
    | some ds => exact ⟨_, rfl⟩

theorem delete_job_ok (w : World) (host : String) (jid : Int) :
    ∃ v, (delete_job w host jid).1 = Except.ok v := by
  unfold delete_job
  cases run_ssh_command w host ("oardel " ++ pyIntRepr jid) with
  | error e => exact ⟨_, rfl⟩
  | ok out => exact ⟨_, rfl⟩

theorem extend_walltime_ok (w : World) (host : String) (jid : Int) (t : String)
    (force : Bool) : ∃ v, (extend_walltime w host jid t force).1 = Except.ok v := by
  unfold extend_walltime
  split
  · exact ⟨_, rfl⟩
  · dsimp only
    cases run_ssh_command w host ("oarwalltime " ++ pyIntRepr jid ++ " +" ++ t ++
        (if force then " --force" else "")) with
    | error e => exact ⟨_, rfl⟩
    | ok out => exact ⟨_, rfl⟩

theorem get_walltime_status_ok (w : World) (host : String) (jid : Int) :
    ∃ v, (get_walltime_status w host jid).1 = Except.ok v := by
  unfold get_walltime_status
  cases run_ssh_command w host ("oarwalltime " ++ pyIntRepr jid) with
  | error e => exact ⟨_, rfl⟩
  | ok out => exact ⟨_, rfl⟩

theorem create_job_ok (w : World) (host : String) (clusters : Option (List String))
    (n : Int) (t cmd : String) (nm : Option String) (be : Bool) :
    ∃ v, (create_job w host clusters n t cmd nm be).1 = Except.ok v := by
  unfold create_job
  split
  · exact ⟨_, rfl⟩
  · cases clusters.getD [] with
    | nil => exact submitAndReport_ok w host _ []
    | cons c cs =>
      dsimp only
      cases list_clusters w host with
      | mk r calls =>
        cases r with
        | error e => exact ⟨_, rfl⟩
        | ok available =>
          dsimp only
          cases (c :: cs).filter (fun x => !(hasStr x available)) with
          | nil => exact submitAndReport_ok w host _ calls
          | cons i is => exact ⟨_, rfl⟩

theorem get_job_status_ok {J : Type} (jp : String → Except String J) (w : World)
    (host : String) (jid : Int) : ∃ v, (get_job_status jp w host jid).1 = Except.ok v := by
  unfold get_job_status
  cases run_ssh_command w host ("oarstat -j " ++ pyIntRepr jid ++ " -J") with
  | error e => exact ⟨_, rfl⟩
  | ok out =>
    dsimp only
    cases jp out with
    | error e => exact ⟨_, rfl⟩
    | ok v => exact ⟨_, rfl⟩

theorem list_all_jobs_ok {J : Type} (jp : String → Except String J) (w : World)
    (host : String) : ∃ v, (list_all_jobs jp w host).1 = Except.ok v := by
  unfold list_all_jobs
  cases run_ssh_command w host "oarstat -J" with
  | error e => exact ⟨_, rfl⟩
  | ok out =>
    dsimp only
    cases jp out with
    | error e => exact ⟨_, rfl⟩
    | ok v => exact ⟨_, rfl⟩

theorem list_my_jobs_ok {J : Type} (jp : String → Except String J) (w : World)
    (host : String) : ∃ v, (list_my_jobs jp w host).1 = Except.ok v := by
  unfold list_my_jobs
  cases run_ssh_command w host "oarstat -u" with
  | error e => exact ⟨_, rfl⟩
  | ok reg =>
    dsimp only
    split
    · exact ⟨_, rfl⟩
    · cases run_ssh_command w host "oarstat -u -J" with
      | error e => exact ⟨_, rfl⟩
      | ok out =>
        dsimp only
        cases jp out with
        | ok v => exact ⟨_, rfl⟩
        | error e =>
          dsimp only
          cases run_ssh_command w host "oarstat -u" with
          | ok reg2 => exact ⟨_, rfl⟩
          | error e2 => exact ⟨_, rfl⟩

/-- C5 (amended): every public operation except the machine-listing
family — `list_machines`, `list_machines_detailed`, `list_clusters` —
returns normally for every executor outcome, including non-zero remote
exit and timeout: execution failures are caught at the operation
boundary and rendered as a payload, never propagated. -/
theorem C5_operations_return_normally (J : Type) (jp : String → Except String J)
    (w : World) (host : String) (jid : Int) (t cmd : String) (force be : Bool)
    (clusters : Option (List String)) (n : Int) (nm : Option String) :
    (∃ v, (delete_job w host jid).1 = Except.ok v) ∧
    (∃ v, (extend_walltime w host jid t force).1 = Except.ok v) ∧
    (∃ v, (get_walltime_status w host jid).1 = Except.ok v) ∧
    (∃ v, (create_job w host clusters n t cmd nm be).1 = Except.ok v) ∧
    (∃ v, (get_job_status jp w host jid).1 = Except.ok v) ∧
    (∃ v, (list_all_jobs jp w host).1 = Except.ok v) ∧
    (∃ v, (list_my_jobs jp w host).1 = Except.ok v) :=
  ⟨delete_job_ok w host jid, extend_walltime_ok w host jid t force,
    get_walltime_status_ok w host jid, create_job_ok w host clusters n t cmd nm be,
    get_job_status_ok jp w host jid, list_all_jobs_ok jp w host,
    list_my_jobs_ok jp w host⟩

/-- C5 (counterexample): the three machine-listing operations have no
handler around the remote call — on a failing remote command the
`ValueError` raised by the executor propagates out of the operation as
an uncaught fault instead of a payload. -/
theorem C5_counterexample :
    (list_machines (constWorld (ProcResult.completed 1 "" " boom ")) "h").1 =
      Except.error "Command failed: boom" ∧
    (list_machines_detailed (jpFail "bad") (constWorld (ProcResult.completed 1 "" " boom "))
        "h").1 = Except.error "Command failed: boom" ∧
    (list_clusters (constWorld (ProcResult.completed 1 "" " boom ")) "h").1 =
      Except.error "Command failed: boom" :=
  ⟨rfl, rfl, rfl⟩

theorem charListLt_irrefl : ∀ l, charListLt l l = false := by
  intro l
  induction l with
  | nil => rfl
  | cons a as ih =>
    unfold charListLt
    rw [if_neg (lt_irrefl a), if_neg (lt_irrefl a)]
    exact ih

theorem charListLt_trans : ∀ a b c : List Char, charListLt a b = true →
    charListLt b c = true → charListLt a c = true := by
  intro a
  induction a with
  | nil =>
    intro b c h1 h2
    cases c with
    | nil => cases b <;> simp [charListLt] at h2
    | cons z zs => rfl
  | cons x xs ih =>
    intro b c h1 h2
    cases b with
    | nil => simp [charListLt] at h1
    | cons y ys =>
      cases c with
      | nil => simp [charListLt] at h2
      | cons z zs =>
        unfold charListLt at h1 h2 ⊢
        by_cases hxy : x < y
        · rw [if_pos hxy] at h1
          by_cases hyz : y < z
          · rw [if_pos (lt_trans hxy hyz)]
          · rw [if_neg hyz] at h2
            by_cases hzy : z < y
            · rw [if_pos hzy] at h2; cases h2
            · obtain rfl : y = z := le_antisymm (not_lt.1 hzy) (not_lt.1 hyz)
              rw [if_pos hxy]
        · rw [if_neg hxy] at h1
          by_cases hyx : y < x
          · rw [if_pos hyx] at h1; cases h1
          · rw [if_neg hyx] at h1
            obtain rfl : x = y := le_antisymm (not_lt.1 hyx) (not_lt.1 hxy)
            by_cases hyz : x < z
            · rw [if_pos hyz]
            · rw [if_neg hyz] at h2 ⊢
              by_cases hzy : z < x
              · rw [if_pos hzy] at h2; cases h2
              · rw [if_neg hzy] at h2 ⊢
                exact ih ys zs h1 h2

theorem charListLt_eq_of_not : ∀ a b : List Char, charListLt a b = false →
    charListLt b a = false → a = b := by
  intro a
  induction a with
  | nil =>
    intro b h1 h2
    cases b with
    | nil => rfl
    | cons y ys => simp [charListLt] at h1
  | cons x xs ih =>
    intro b h1 h2
    cases b with
    | nil => simp [charListLt] at h2
    | cons y ys =>
      unfold charListLt at h1 h2
      by_cases hxy : x < y
      · rw [if_pos hxy] at h1; cases h1
      · rw [if_neg hxy] at h1
        by_cases hyx : y < x
        · rw [if_pos hyx] at h2; cases h2
        · rw [if_neg hyx] at h1 h2
          rw [if_neg hxy] at h2
          obtain rfl : x = y := le_antisymm (not_lt.1 hyx) (not_lt.1 hxy)
          rw [ih ys h1 h2]

theorem strLt_irrefl (s : String) : strLt s s = false := charListLt_irrefl _

theorem strLt_trans {a b c : String} (h1 : strLt a b = true) (h2 : strLt b c = true) :
    strLt a c = true := charListLt_trans _ _ _ h1 h2

theorem strLt_eq_of_not {a b : String} (h1 : strLt a b = false)
    (h2 : strLt b a = false) : a = b :=
  String.toList_inj.1 (charListLt_eq_of_not _ _ h1 h2)

theorem strLt_ne {a b : String} (h : strLt a b = true) : a ≠ b := by
  intro he
  rw [he, strLt_irrefl] at h
  cases h

theorem strLt_total_of_ne {s t : String} (hne : s ≠ t) (h : strLt s t = false) :
    strLt t s = true := by
  by_contra hc
  rw [Bool.not_eq_true] at hc
  exact hne (strLt_eq_of_not h hc)

theorem mem_insertSorted (s a : String) : ∀ l, a ∈ insertSorted s l ↔ a = s ∨ a ∈ l := by
  intro l
  induction l with
  | nil => simp [insertSorted]
  | cons t ts ih =>
    unfold insertSorted
    by_cases hst : s = t
    · rw [if_pos hst]
      subst hst
      simp only [List.mem_cons]
      tauto
    · rw [if_neg hst]
      by_cases hlt : strLt s t = true
      · rw [if_pos hlt]
        simp only [List.mem_cons]
      · rw [if_neg hlt]
        simp only [List.mem_cons, ih]
        tauto

theorem pairwise_insertSorted (s : String) :
    ∀ l, l.Pairwise (fun a b => strLt a b = true) →
      (insertSorted s l).Pairwise (fun a b => strLt a b = true) := by
  intro l
  induction l with
  | nil => intro _; simp [insertSorted]
  | cons t ts ih =>
    intro h
    rw [List.pairwise_cons] at h
    obtain ⟨ht, hts⟩ := h
    unfold insertSorted
    by_cases hst : s = t
    · rw [if_pos hst]
      exact List.pairwise_cons.2 ⟨ht, hts⟩
    · rw [if_neg hst]
      by_cases hlt : strLt s t = true
      · rw [if_pos hlt]
        refine List.pairwise_cons.2 ⟨?_, List.pairwise_cons.2 ⟨ht, hts⟩⟩
        intro x hx
        rcases List.mem_cons.1 hx with rfl | hx
        · exact hlt
        · exact strLt_trans hlt (ht x hx)
      · rw [if_neg hlt]
        have hlt' : strLt s t = false := by
          revert hlt; cases strLt s t <;> simp
        refine List.pairwise_cons.2 ⟨?_, ih hts⟩
        intro x hx
        rcases (mem_insertSorted s x ts).1 hx with rfl | hx
        · exact strLt_total_of_ne hst hlt'
        · exact ht x hx

theorem sortedDedup_cons (x : String) (l : List String) :
    sortedDedup (x :: l) = insertSorted x (sortedDedup l) := rfl

theorem mem_sortedDedup (a : String) : ∀ l, a ∈ sortedDedup l ↔ a ∈ l := by
  intro l
  induction l with
  | nil => simp [sortedDedup]
  | cons x xs ih =>
    rw [sortedDedup_cons, mem_insertSorted, ih]
    simp [List.mem_cons]

theorem pairwise_sortedDedup : ∀ l : List String,
    (sortedDedup l).Pairwise (fun a b => strLt a b = true) := by
  intro l
  induction l with
  | nil => simp [sortedDedup]
  | cons x xs ih =>
    rw [sortedDedup_cons]
    exact pairwise_insertSorted x _ ih

theorem sorted_ext : ∀ l₁ l₂ : List String,
    l₁.Pairwise (fun a b => strLt a b = true) →
    l₂.Pairwise (fun a b => strLt a b = true) →
    (∀ a, a ∈ l₁ ↔ a ∈ l₂) → l₁ = l₂ := by
  intro l₁
  induction l₁ with
  | nil =>
    intro l₂ _ _ hm
    cases l₂ with
    | nil => rfl
    | cons b bs => exact absurd ((hm b).2 (List.mem_cons_self b bs)) (List.not_mem_nil b)
  | cons a as ih =>
    intro l₂ h₁ h₂ hm
    cases l₂ with
    | nil => exact absurd ((hm a).1 (List.mem_cons_self a as)) (List.not_mem_nil a)
    | cons b bs =>
      rw [List.pairwise_cons] at h₁ h₂
      obtain ⟨ha, has⟩ := h₁
      obtain ⟨hb, hbs⟩ := h₂
      have hab : a = b := by
        rcases List.mem_cons.1 ((hm a).1 (List.mem_cons_self a as)) with h | h
        · exact h
        · rcases List.mem_cons.1 ((hm b).2 (List.mem_cons_self b bs)) with h' | h'
          · exact h'.symm
          · have := strLt_trans (ha b h') (hb a h)
            rw [strLt_irrefl] at this
            cases this
      subst hab
      have htail : as = bs := by
        apply ih bs has hbs
        intro x
        constructor
        · intro hx
          rcases List.mem_cons.1 ((hm x).1 (List.mem_cons_of_mem a hx)) with rfl | h
          · have := ha x hx
            rw [strLt_irrefl] at this
            cases this
          · exact h
        · intro hx
          rcases List.mem_cons.1 ((hm x).2 (List.mem_cons_of_mem a hx)) with rfl | h
          · have := hb x hx
            rw [strLt_irrefl] at this
            cases this
          · exact h
      rw [htail]

theorem mem_clustersOf (machines : List String) (s : String) :
    s ∈ clustersOf machines ↔
      ∃ m ∈ machines, hasChar '-' m.toList = true ∧
        String.mk (m.toList.takeWhile (fun c => c ≠ '-')) = s := by
  unfold clustersOf
  rw [mem_sortedDedup, List.mem_filterMap]
  constructor
  · rintro ⟨m, hm, hf⟩
    by_cases hd : hasChar '-' m.toList = true
    · rw [if_pos hd] at hf
      exact ⟨m, hm, hd, Option.some.inj hf⟩
    · rw [if_neg hd] at hf
      cases hf
  · rintro ⟨m, hm, hd, he⟩
    exact ⟨m, hm, by rw [if_pos hd, he]⟩

/-- C8: for every machine list, the derived cluster list is strictly
ascending (hence duplicate-free), contains exactly the prefix before
the first separator of each hostname that has one (a hostname without a
separator contributes nothing), and is invariant under any reordering
of the input; the listing operation returns exactly this list. -/
theorem C8_cluster_derivation (machines : List String) :
    (clustersOf machines).Pairwise (fun a b => strLt a b = true) ∧
    (clustersOf machines).Nodup ∧
    (∀ s, s ∈ clustersOf machines ↔ ∃ m ∈ machines, hasChar '-' m.toList = true ∧
      String.mk (m.toList.takeWhile (fun c => c ≠ '-')) = s) ∧
    (∀ machines', machines.Perm machines' → clustersOf machines = clustersOf machines') ∧
    (∀ (w : World) (host out : String),
      run_ssh_command w host "oarnodes -l" = Except.ok out →
      list_clusters w host =
        (Except.ok (clustersOf (machinesOfOutput out)), ["oarnodes -l"])) := by
  refine ⟨pairwise_sortedDedup _, ?_, mem_clustersOf machines, ?_, ?_⟩
  · exact (pairwise_sortedDedup _).imp (fun h => strLt_ne h)
  · intro machines' hp
    apply sorted_ext _ _ (pairwise_sortedDedup _) (pairwise_sortedDedup _)
    intro a
    show a ∈ clustersOf machines ↔ a ∈ clustersOf machines'
    rw [mem_clustersOf, mem_clustersOf]
    constructor
    · rintro ⟨m, hm, h⟩
      exact ⟨m, hp.mem_iff.1 hm, h⟩
    · rintro ⟨m, hm, h⟩
      exact ⟨m, hp.mem_iff.2 hm, h⟩
  · exact fun w host out h => list_clusters_run w host out h

/-- C8 (witness): transposing the machine list leaves the derived
cluster list unchanged, and the derived list is ascending and
de-duplicated on a concrete inventory. -/
theorem C8_cluster_derivation_witness :
    clustersOf ["bulbasaur-2", "alakazam-1"] = clustersOf ["alakazam-1", "bulbasaur-2"] ∧
    clustersOf ["bulbasaur-2", "alakazam-1"] = ["alakazam", "bulbasaur"] :=
  ⟨(C8_cluster_derivation ["bulbasaur-2", "alakazam-1"]).2.2.2.1
      ["alakazam-1", "bulbasaur-2"] (List.Perm.swap "alakazam-1" "bulbasaur-2" []),
    by decide⟩

/-- World for the list-my-jobs counterexample: the plain user listing
answers `j1`, every other command answers `notjson`. -/
def wMyJobs : World := fun args _ =>
  if args = ["ssh", "h", "oarstat -u"] then ProcResult.completed 0 "j1" ""
  else ProcResult.completed 0 "notjson" ""

/-- C9 (amended): for the detailed machine listing, the job-status query
and the all-jobs listing, a raw output that fails to parse as JSON
yields a degraded result carrying both the parse-error message and the
original raw text unmodified; the current-user listing instead refetches
the plain listing on a parse failure and returns it with an explanatory
message, without the raw unparsed text, which is only surfaced if that
refetch itself fails. -/
theorem C9_degraded_results (J : Type) (jp : String → Except String J) (w : World)
    (host : String) (jid : Int) :
    (∀ out e, run_ssh_command w host "oarnodes -J" = Except.ok out →
      jp out = Except.error e →
      list_machines_detailed jp w host =
        (Except.ok (PyDict.fields
          [("error", PyVal.str ("Failed to parse JSON output: " ++ e)),
           ("raw_output", PyVal.str out)]), ["oarnodes -J"])) ∧
    (∀ out e, run_ssh_command w host ("oarstat -j " ++ pyIntRepr jid ++ " -J") =
        Except.ok out →
      jp out = Except.error e →
      get_job_status jp w host jid =
        (Except.ok (PyDict.fields
          [("error", PyVal.str ("Failed to parse JSON output: " ++ e)),
           ("raw_output", PyVal.str out)]),
          ["oarstat -j " ++ pyIntRepr jid ++ " -J"])) ∧
    (∀ out e, run_ssh_command w host "oarstat -J" = Except.ok out →
      jp out = Except.error e →
      list_all_jobs jp w host =
        (Except.ok (PyDict.fields
          [("error", PyVal.str ("Failed to parse JSON output: " ++ e)),
           ("raw_output", PyVal.str out)]), ["oarstat -J"])) ∧
    (∀ reg out e, run_ssh_command w host "oarstat -u" = Except.ok reg →
      pyStrip reg ≠ "" →
      run_ssh_command w host "oarstat -u -J" = Except.ok out →
      jp out = Except.error e →
      list_my_jobs jp w host =
        (Except.ok (PyDict.fields
          [("message",
            PyVal.str "Jobs for current user (text format due to JSON parsing error)"),
           ("output", PyVal.str reg)]),
          ["oarstat -u", "oarstat -u -J", "oarstat -u"])) := by
  refine ⟨?_, ?_, ?_, ?_⟩
  · intro out e hrun hjp
    unfold list_machines_detailed
    rw [hrun]
    dsimp only
    rw [hjp]
  · intro out e hrun hjp
    unfold get_job_status
    rw [hrun]
    dsimp only
    rw [hjp]
  · intro out e hrun hjp
    unfold list_all_jobs
    rw [hrun]
    dsimp only
    rw [hjp]
  · intro reg out e hreg hne hout hjp
    unfold list_my_jobs
    rw [hreg]
    dsimp only
    rw [if_neg hne, hout]
    dsimp only
    rw [hjp]

/-- C9 (witness): the detailed machine listing degrades on non-JSON
output, keeping the raw text. -/
theorem C9_degraded_witness :
    list_machines_detailed (jpFail "bad")
        (constWorld (ProcResult.completed 0 "notjson" "")) "h" =
      (Except.ok (PyDict.fields
        [("error", PyVal.str "Failed to parse JSON output: bad"),
         ("raw_output", PyVal.str "notjson")]), ["oarnodes -J"]) := by
  rw [(C9_degraded_results Unit (jpFail "bad")
    (constWorld (ProcResult.completed 0 "notjson" "")) "h" 0).1 "notjson" "bad" rfl rfl]
  rfl

/-- C9 (counterexample): when the current-user structured listing fails
to parse but the plain refetch succeeds, the operation returns the
plain listing with a message — the raw unparsed text `notjson` appears
nowhere in the result, contradicting the claim for this query. -/
theorem C9_counterexample :
    list_my_jobs (jpFail "bad") wMyJobs "h" =
      (Except.ok (PyDict.fields
        [("message",
          PyVal.str "Jobs for current user (text format due to JSON parsing error)"),
         ("output", PyVal.str "j1")]),
        ["oarstat -u", "oarstat -u -J", "oarstat -u"]) ∧
    PyVal.str "notjson" ∉
      ([("message",
         PyVal.str "Jobs for current user (text format due to JSON parsing error)"),
        ("output", PyVal.str "j1")].map Prod.snd) := by
  refine ⟨rfl, by decide⟩

end NovaOar
